import Mathlib

/-!
Verification of the authentication gateway router
(`apps/api-gateway/src/routers/auth.py`) against its specification.

The Python handlers are shallowly embedded: the two process-wide dicts
(`otp_request_state`, `verified_reset_tokens`) become association lists,
`datetime.utcnow()` becomes an explicit `now : Nat` parameter (minutes),
the SHA-256 hex digest becomes an abstract parameter `h : String → String`,
and each outbound provider call takes its outcome as an explicit argument.
`HTTPException(status_code, detail)` is modelled by an error type, and
every handler returns an `Except` of its response together with the
updated shared state and the list of OTP-dispatch calls it performed.
-/

namespace AuthGateway

/-- Association-list model of a Python `dict[str, α]`: `d.get(k)`. -/
def dget {α : Type} (m : List (String × α)) (k : String) : Option α :=
  (m.find? (fun p => p.1 == k)).map (fun p => p.2)

/-- Association-list model of `d[k] = v` (unconditional overwrite). -/
def dset {α : Type} (m : List (String × α)) (k : String) (v : α) : List (String × α) :=
  (k, v) :: m.filter (fun p => p.1 ≠ k)

/-- Association-list model of `d.pop(k, None)` (the removal effect). -/
def dpop {α : Type} (m : List (String × α)) (k : String) : List (String × α) :=
  m.filter (fun p => p.1 ≠ k)

/-- Untyped Python/JSON values as they appear in provider responses. -/
inductive PyVal where
  | none
  | bool (b : Bool)
  | str (s : String)
  | int (n : Int)
  | dict (entries : List (String × PyVal))

/-- Python truthiness of a `PyVal` (`if not v: ...`). -/
def PyVal.truthy : PyVal → Bool
  | .none => false
  | .bool b => b
  | .str s => s ≠ ""
  | .int n => n ≠ 0
  | .dict es => ¬ es.isEmpty

/-- `v.get(k)` on a dict, `None` otherwise (callers guard with `isinstance`). -/
def PyVal.get (v : PyVal) (k : String) : PyVal :=
  match v with
  | .dict es =>
    match es.find? (fun p => p.1 == k) with
    | some p => p.2
    | Option.none => .none
  | _ => .none

/-- `True` iff `v` is a Python dict (`isinstance(v, dict)`). -/
def PyVal.isDict : PyVal → Bool
  | .dict _ => true
  | _ => false

/-- `_coerce_bool`: normalize truthy metadata values that may arrive as strings. -/
def _coerce_bool : PyVal → Bool
  | .bool b => b
  | .str s => ["true", "1", "yes", "y", "t"].contains (s.trim.toLower)
  | .int n => n ≠ 0
  | _ => false

/-- Model of Python `str.lower()` (ASCII case folding, as in the messages
this module inspects). -/
def strLower (s : String) : String := ⟨s.data.map Char.toLower⟩

/-- Helper for the substring test: does `n` occur as a contiguous block of `h`? -/
def listInfixOf (n : List Char) : List Char → Bool
  | [] => n.isEmpty
  | c :: rest => n.isPrefixOf (c :: rest) || listInfixOf n rest

/-- Substring test (`needle in haystack` on Python strings). -/
def strContains (haystack needle : String) : Bool :=
  listInfixOf needle.toList haystack.toList

/-- `HTTPException(status_code, detail)` (and the one `ValueError` the module can raise). -/
inductive ApiError where
  | http (statusCode : Nat) (detail : String)
  | valueError (msg : String)
deriving Repr, DecidableEq

/-- Status code of a raised error, as the HTTP layer reports it. -/
def ApiError.status : ApiError → Nat
  | .http c _ => c
  | .valueError _ => 500

/-- The special characters accepted by the password validators
(the regex class from the source). -/
def specialCharacters : String := "!@#$%^&*(),.?\":\x7b\x7d|<>"

/-- The five password rules, in the order the field validation checks them:
`min_length=8` is a field constraint checked before the custom validator,
which then checks uppercase, lowercase, digit, special character. -/
inductive PasswordRule where
  | minLength
  | uppercase
  | lowercase
  | digit
  | specialChar
deriving Repr, DecidableEq

/-- Whether a password violates a given rule (source: `re.search` on the
character classes, and the `min_length=8` field constraint). -/
def violates (v : String) : PasswordRule → Bool
  | .minLength => v.length < 8
  | .uppercase => ¬ v.toList.any (fun c => 'A' ≤ c ∧ c ≤ 'Z')
  | .lowercase => ¬ v.toList.any (fun c => 'a' ≤ c ∧ c ≤ 'z')
  | .digit => ¬ v.toList.any (fun c => '0' ≤ c ∧ c ≤ '9')
  | .specialChar => ¬ v.toList.any (fun c => specialCharacters.toList.contains c)

/-- `validate_password_strength` (identical in `SignUpRequest` and
`ResetPasswordRequest`): raises `ValueError` with the first violated rule's
message, else returns the password. -/
def validate_password_strength (v : String) : Except String String :=
  if violates v .uppercase then
    .error "Password must contain at least one uppercase letter"
  else if violates v .lowercase then
    .error "Password must contain at least one lowercase letter"
  else if violates v .digit then
    .error "Password must contain at least one number"
  else if violates v .specialChar then
    .error "Password must contain at least one special character"
  else .ok v

/-- The message attached to each rule by the validation machinery. -/
def ruleMessage : PasswordRule → String
  | .minLength => "ensure this value has at least 8 characters"
  | .uppercase => "Password must contain at least one uppercase letter"
  | .lowercase => "Password must contain at least one lowercase letter"
  | .digit => "Password must contain at least one number"
  | .specialChar => "Password must contain at least one special character"

/-- The list of rule-violation messages the 422 response carries for the
password field: pydantic checks `min_length` first and skips the custom
validator when it fails; the custom validator raises at most one message. -/
def passwordFieldErrors (v : String) : List String :=
  if violates v .minLength then [ruleMessage .minLength]
  else
    match validate_password_strength v with
    | .error msg => [msg]
    | .ok _ => []

/-- Modelled from the spec: the error list the spec promises — "a structured
422 listing every violated rule, not just the first". -/
def specPasswordErrors (v : String) : List String :=
  ([PasswordRule.minLength, .uppercase, .lowercase, .digit, .specialChar].filter
    (fun r => violates v r)).map ruleMessage

/-! ## Shared process-wide state -/

/-- An entry of `otp_request_state`: purpose and request time of the last
dispatched OTP for an email. -/
structure OtpEntry where
  purpose : String
  requested_at : Nat
deriving Repr, DecidableEq

/-- `otp_request_state : dict[str, dict]`. -/
abbrev OtpState := List (String × OtpEntry)

/-- An entry of `verified_reset_tokens`: SHA-256 hex fingerprint of the
verified code, and its expiry instant. -/
structure ResetEntry where
  token_hash : String
  expires : Nat
deriving Repr, DecidableEq

/-- `verified_reset_tokens : dict[str, dict]`. -/
abbrev ResetState := List (String × ResetEntry)

/-- `PURPOSE_TO_SUPABASE_TYPE` lookup (`.get`). -/
def PURPOSE_TO_SUPABASE_TYPE (purpose : String) : Option String :=
  if purpose = "signup" then some "signup"
  else if purpose = "reset" then some "recovery"
  else none

/-- `_track_otp_request`: record the latest OTP request purpose for resend
handling (unconditional overwrite). -/
def _track_otp_request (st : OtpState) (email purpose : String) (now : Nat) : OtpState :=
  dset st email ⟨purpose, now⟩

/-- `_record_verified_reset_token`: remember the verified reset OTP hash,
expiring `OTP_EXPIRY_MINUTES` after the moment of recording.  `h` stands for
`hashlib.sha256(·.encode()).hexdigest()`. -/
def _record_verified_reset_token (h : String → String) (expiryMinutes : Nat)
    (st : ResetState) (email otp : String) (now : Nat) : ResetState :=
  dset st email ⟨h otp, now + expiryMinutes⟩

/-- `_ensure_reset_token_is_valid`: validate the cached reset OTP.  Returns
the raised `HTTPException` (if any) together with the possibly-updated cache
(the entry is popped when expiry is detected). -/
def _ensure_reset_token_is_valid (h : String → String) (st : ResetState)
    (email otp : String) (now : Nat) : Option ApiError × ResetState :=
  match dget st email with
  | Option.none =>
    (some (.http 400 "Reset verification is missing or expired. Please request a new code."), st)
  | some entry =>
    if entry.token_hash ≠ h otp then
      (some (.http 400 "Invalid verification code. Please request a new one."), st)
    else if now > entry.expires then
      (some (.http 400 "Verification code expired. Please request a new one."), dpop st email)
    else
      (Option.none, st)

/-! ## Provider calls

Each outbound HTTP call to the provider is embedded by passing its outcome
as an explicit argument: the handler's behaviour is a function of what the
network returned. -/

/-- Outcome of the `POST /auth/v1/otp` dispatch inside `send_supabase_otp`:
2xx, `HTTPStatusError` with a given status code, or any other exception. -/
inductive DispatchOutcome where
  | ok
  | httpStatusError (statusCode : Nat)
  | otherError
deriving Repr, DecidableEq

/-- Result of a handler fragment: the raised error or returned value, the two
shared dicts afterwards, and the provider OTP-dispatch calls performed
(email, purpose). -/
structure SendResult where
  result : Except ApiError Unit
  tracker : OtpState
  calls : List (String × String)

/-- `send_supabase_otp`: trigger OTP delivery.  On 2xx the tracker entry is
written; 401/403 raises 500, any other `HTTPStatusError` raises 400, any
other exception raises 500.  Unsupported purposes raise `ValueError` before
any network call. -/
def send_supabase_otp (st : OtpState) (email purpose : String) (now : Nat)
    (outcome : DispatchOutcome) : SendResult :=
  match PURPOSE_TO_SUPABASE_TYPE purpose with
  | Option.none => ⟨.error (.valueError ("Unsupported OTP purpose: " ++ purpose)), st, []⟩
  | some _ =>
    match outcome with
    | .ok => ⟨.ok (), _track_otp_request st email purpose now, [(email, purpose)]⟩
    | .httpStatusError code =>
      if code = 401 ∨ code = 403 then
        ⟨.error (.http 500 "Supabase credentials are invalid or missing. Please verify SUPABASE_SERVICE_KEY."),
          st, [(email, purpose)]⟩
      else
        ⟨.error (.http 400 "Unable to send verification code for this email. Please verify the request and try again."),
          st, [(email, purpose)]⟩
    | .otherError =>
      ⟨.error (.http 500 "Unable to send verification code. Please try again later."),
        st, [(email, purpose)]⟩

/-- Outcome of the `POST /auth/v1/verify` call inside `verify_supabase_otp`:
the parsed JSON body on 2xx, `httpStatusError` (the function then returns the
empty dict), or any other exception (the function raises 500). -/
inductive VerifyOutcome where
  | body (v : PyVal)
  | httpStatusError
  | otherError

/-- `verify_supabase_otp`: returns the response payload on success, `{}` on a
provider 4xx/5xx status, and raises 500 on any other exception.
(Callers in this module only use supported purposes, so the `ValueError`
branch is modelled by `ApiError.valueError`.) -/
def verify_supabase_otp (purpose : String) (outcome : VerifyOutcome) :
    Except ApiError PyVal :=
  match PURPOSE_TO_SUPABASE_TYPE purpose with
  | Option.none => .error (.valueError ("Unsupported OTP purpose: " ++ purpose))
  | some _ =>
    match outcome with
    | .body v => .ok v
    | .httpStatusError => .ok (.dict [])
    | .otherError => .error (.http 500 "Verification service is unavailable. Please try again later.")

/-! ## Handlers -/

/-- Result of a handler whose success body is a plain message. -/
structure HandlerResult where
  result : Except ApiError (Nat × String)
  tracker : OtpState
  calls : List (String × String)

/-- The fixed body returned by `forgot_password`. -/
def forgotPasswordMessage : String :=
  "If an account exists with this email, you will receive a verification code."

/-- `forgot_password`: dispatch a reset OTP; on a 400 rejection, opportunistically
re-dispatch a signup OTP (failures of that fallback are swallowed); always
return the same success message.  Non-400 dispatch errors propagate. -/
def forgot_password (st : OtpState) (email : String) (now : Nat)
    (resetDispatch fallbackDispatch : DispatchOutcome) : HandlerResult :=
  let s1 := send_supabase_otp st email "reset" now resetDispatch
  match s1.result with
  | .ok _ => ⟨.ok (200, forgotPasswordMessage), s1.tracker, s1.calls⟩
  | .error (.valueError m) => ⟨.error (.valueError m), s1.tracker, s1.calls⟩
  | .error (.http code detail) =>
    if code = 400 then
      let s2 := send_supabase_otp s1.tracker email "signup" now fallbackDispatch
      match s2.result with
      | .error (.valueError m) => ⟨.error (.valueError m), s2.tracker, s1.calls ++ s2.calls⟩
      | _ => ⟨.ok (200, forgotPasswordMessage), s2.tracker, s1.calls ++ s2.calls⟩
    else
      ⟨.error (.http code detail), s1.tracker, s1.calls⟩

/-- `resend_otp`: resolve the purpose from `otp_request_state`; a missing
entry is a hard 400 with no dispatch; otherwise re-dispatch under the
recorded purpose. -/
def resend_otp (st : OtpState) (email : String) (now : Nat)
    (dispatch : DispatchOutcome) : HandlerResult :=
  match dget st email with
  | Option.none =>
    ⟨.error (.http 400 "No pending verification found. Please start the process again."), st, []⟩
  | some entry =>
    let s := send_supabase_otp st email entry.purpose now dispatch
    match s.result with
    | .error e => ⟨.error e, s.tracker, s.calls⟩
    | .ok _ => ⟨.ok (200, "Verification code resent. Please check your email."), s.tracker, s.calls⟩

/-- A user object returned by `supabase.auth.admin.list_users()`. -/
structure AdminUser where
  id : String
  email : String
deriving Repr, DecidableEq

/-- Outcome of the admin user listing in `reset_password`. -/
inductive ListUsersOutcome where
  | users (us : List AdminUser)
  | exn

/-- Result of `reset_password`: raised error or response, the reset-token
cache afterwards, and whether the provider re-verification fallback ran. -/
structure ResetPasswordResult where
  result : Except ApiError (Nat × String)
  resetTokens : ResetState
  reverifyCalled : Bool

/-- `reset_password`: validate the cached reset token; on ANY `HTTPException`
from that check, fall back to re-verifying the OTP with the provider
(re-raising the original error if the fallback returns an empty result);
then look the user up, update the password and clear the cache entry. -/
def reset_password (h : String → String) (expiryMinutes : Nat) (st : ResetState)
    (email otp : String) (now : Nat) (reverify : VerifyOutcome)
    (listUsers : ListUsersOutcome) (updateOk : Bool) : ResetPasswordResult :=
  let checked : Except ApiError Unit × ResetState × Bool :=
    match _ensure_reset_token_is_valid h st email otp now with
    | (Option.none, st1) => (.ok (), st1, false)
    | (some e, st1) =>
      match verify_supabase_otp "reset" reverify with
      | .error e2 => (.error e2, st1, true)
      | .ok v =>
        if v.truthy then
          (.ok (), _record_verified_reset_token h expiryMinutes st1 email otp now, true)
        else
          (.error e, st1, true)
  match checked with
  | (.error e, st1, called) => ⟨.error e, st1, called⟩
  | (.ok _, st1, called) =>
    match listUsers with
    | .exn => ⟨.error (.http 500 "Password reset failed. Please try again."), st1, called⟩
    | .users us =>
      match us.find? (fun u => u.email == email) with
      | Option.none => ⟨.error (.http 404 "User not found."), st1, called⟩
      | some _ =>
        if updateOk then
          ⟨.ok (200, "Password reset successful. You can now sign in with your new password."),
            dpop st1 email, called⟩
        else
          ⟨.error (.http 500 "Password reset failed. Please try again."), st1, called⟩

/-- The session record built from provider-returned data
(`session_metadata` / `user_session`). -/
structure SessionData where
  user_id : PyVal
  email : PyVal
  role : PyVal
  name : PyVal
  department : PyVal
  has_selected_data_source : Bool

/-- `verify_signup_otp` (`POST /verify-otp`): verify the signup OTP with the
provider, demand a user payload with id and email, clear the tracker entry
and create the session. -/
def verify_signup_otp (st : OtpState) (email : String) (outcome : VerifyOutcome) :
    Except ApiError (Nat × String × SessionData) × OtpState × Option SessionData :=
  match verify_supabase_otp "signup" outcome with
  | .error e => (.error e, st, Option.none)
  | .ok verification =>
    if ¬ verification.truthy then
      (.error (.http 400 "Invalid or expired verification code."), st, Option.none)
    else
      let user_payload := if verification.isDict then verification.get "user" else .none
      if ¬ user_payload.truthy then
        (.error (.http 500 "Verification service did not return user information."), st, Option.none)
      else
        let st1 := dpop st email
        if ¬ user_payload.isDict then
          (.error (.http 500 "Verification failed. Please try again."), st1, Option.none)
        else
          let meta0 := user_payload.get "user_metadata"
          let metadata := if meta0.truthy then meta0 else .dict []
          if ¬ metadata.isDict then
            (.error (.http 500 "Verification failed. Please try again."), st1, Option.none)
          else
            let sm : SessionData :=
              { user_id := user_payload.get "id"
                email := user_payload.get "email"
                role := metadata.get "role"
                name := metadata.get "name"
                department := metadata.get "department"
                has_selected_data_source := _coerce_bool (metadata.get "has_selected_data_source") }
            if ¬ sm.user_id.truthy ∨ ¬ sm.email.truthy then
              (.error (.http 500 "Incomplete user data returned after verification."), st1, Option.none)
            else
              (.ok (200, "Email verified successfully.", sm), st1, some sm)

/-- A user object returned by `supabase.auth.sign_in_with_password`. -/
structure SupabaseUser where
  id : String
  email : String
  email_confirmed_at : Option String
  user_metadata : PyVal

/-- Python truthiness of an optional timestamp-like field. -/
def optTruthy : Option String → Bool
  | Option.none => false
  | some s => s ≠ ""

/-- Outcome of the credential check in `signin`: a response (whose `user`
may be absent) or any exception from the provider SDK. -/
inductive SignInOutcome where
  | response (user : Option SupabaseUser)
  | exn

/-- Outcome of the application `users`-table lookup in `signin`. -/
inductive DbLookup where
  | rows (rows : List PyVal)
  | exn

/-- `signin`: 400 on missing user or any credential failure (one
indistinguishable message), 403 when the email is unconfirmed; on success
resolve profile fields from the `users` table with graceful fallback to
provider metadata, then create the session. -/
def signin (attempt : SignInOutcome) (db : DbLookup) :
    Except ApiError (Nat × String × SessionData) × Option SessionData :=
  match attempt with
  | .exn => (.error (.http 400 "Invalid email or password."), Option.none)
  | .response Option.none =>
    (.error (.http 400 "Invalid email or password."), Option.none)
  | .response (some user) =>
    if ¬ optTruthy user.email_confirmed_at then
      (.error (.http 403 "Please verify your email before signing in."), Option.none)
    else
      let metadata := if user.user_metadata.truthy then user.user_metadata else .dict []
      if ¬ metadata.isDict then
        -- `metadata.get(...)` raises on a non-dict; the generic handler maps it to 400
        (.error (.http 400 "Invalid email or password."), Option.none)
      else
        let hsds0 := _coerce_bool (metadata.get "has_selected_data_source")
        let fields : PyVal × PyVal × PyVal × Bool :=
          match db with
          | .exn => (metadata.get "role", metadata.get "name", metadata.get "department", hsds0)
          | .rows [] => (metadata.get "role", metadata.get "name", metadata.get "department", hsds0)
          | .rows (rec :: _) =>
            match rec with
            | .dict es =>
              let hsdsDefault : PyVal :=
                match es.find? (fun p => p.1 == "has_selected_data_source") with
                | some p => p.2
                | Option.none => .bool hsds0
              (rec.get "role", rec.get "name", rec.get "department", _coerce_bool hsdsDefault)
            | _ =>
              -- `user_record.get(...)` raises on a non-dict; the bare except falls back
              (metadata.get "role", metadata.get "name", metadata.get "department", hsds0)
        let user_session : SessionData :=
          { user_id := .str user.id
            email := .str user.email
            role := fields.1
            name := fields.2.1
            department := fields.2.2.1
            has_selected_data_source := fields.2.2.2 }
        (.ok (200, "Sign in successful.", user_session), some user_session)

/-- An `AuthApiError` raised by `supabase.auth.admin.create_user`. -/
structure AuthApiErr where
  message : String
  status : Option Nat
deriving Repr, DecidableEq

/-- Outcome of the provider account-creation call in `signup`. -/
inductive CreateUserOutcome where
  | created
  | authApiError (e : AuthApiErr)
  | otherError
deriving Repr, DecidableEq

/-- The body returned by a successful `signup` (HTTP 201). -/
structure SignupResponse where
  message : String
  already_registered : Bool
deriving Repr, DecidableEq

/-- Result of `signup`: raised error or 201 body, tracker afterwards, and
the OTP-dispatch calls performed. -/
structure SignupResult where
  result : Except ApiError SignupResponse
  tracker : OtpState
  calls : List (String × String)

/-- `signup`: create the account, dispatch a signup OTP and track it.
401/403 or "not allowed" from the provider → 500; a 400/409/422 whose
message signals an existing registration → re-dispatch the OTP and return
success with `already_registered`; other `AuthApiError`s → 400; anything
else → 500. -/
def signup (st : OtpState) (email : String) (now : Nat)
    (create : CreateUserOutcome) (dispatch : DispatchOutcome) : SignupResult :=
  match create with
  | .created =>
    let s := send_supabase_otp st email "signup" now dispatch
    match s.result with
    | .error (.valueError _) =>
      ⟨.error (.http 500 "Registration failed. Please try again."), s.tracker, s.calls⟩
    | .error (.http c d) => ⟨.error (.http c d), s.tracker, s.calls⟩
    | .ok _ =>
      ⟨.ok ⟨"Registration successful. Please check your email for verification code.", false⟩,
        s.tracker, s.calls⟩
  | .authApiError e =>
    let normalized := strLower e.message
    if (e.status = some 401 ∨ e.status = some 403) ∨ strContains normalized "not allowed" then
      ⟨.error (.http 500 "Supabase service role key is missing or invalid. Please verify SUPABASE_SERVICE_KEY."),
        st, []⟩
    else if (e.status = some 400 ∨ e.status = some 409 ∨ e.status = some 422) ∧
        (strContains normalized "already registered" ∨ strContains normalized "user already exists") then
      let s := send_supabase_otp st email "signup" now dispatch
      match s.result with
      | .error err => ⟨.error err, s.tracker, s.calls⟩
      | .ok _ =>
        ⟨.ok ⟨"This email is already registered. We have resent the verification code.", true⟩,
          s.tracker, s.calls⟩
    else
      ⟨.error (.http 400 "Registration failed. Please verify the information and try again."),
        st, []⟩
  | .otherError =>
    ⟨.error (.http 500 "Registration failed. Please try again."), st, []⟩

/-- A dispatch event: one call to `send_supabase_otp` with its outcome. -/
structure DispatchEvent where
  email : String
  purpose : String
  now : Nat
  outcome : DispatchOutcome
deriving Repr, DecidableEq

/-- Run a sequence of `send_supabase_otp` calls over the tracker, keeping
only the state effect (each handler's other work does not touch the
tracker except to pop verified entries). -/
def runDispatches (st : OtpState) : List DispatchEvent → OtpState
  | [] => st
  | ev :: rest =>
    runDispatches (send_supabase_otp st ev.email ev.purpose ev.now ev.outcome).tracker rest

/-! ## Basic lemmas about the dict model -/

theorem dget_dpop_ne {α : Type} (m : List (String × α)) (k k' : String) (hne : k' ≠ k) :
    dget (dpop m k) k' = dget m k' := by
  unfold dget dpop
  induction m with
  | nil => rfl
  | cons a rest ih =>
    by_cases hk : a.1 = k
    · have h2 : (a.1 == k') = false := by simp [hk, Ne.symm hne]
      rw [List.filter_cons]
      rw [show (decide (a.1 ≠ k)) = false by simp [hk]]
      rw [if_neg (by simp)]
      rw [List.find?_cons_of_neg _ (by simp [h2]), ih]
    · rw [List.filter_cons]
      rw [show (decide (a.1 ≠ k)) = true by simp [hk]]
      rw [if_pos rfl]
      by_cases ha : a.1 = k'
      · rw [List.find?_cons_of_pos _ (by simp [ha]), List.find?_cons_of_pos _ (by simp [ha])]
      · rw [List.find?_cons_of_neg _ (by simp [ha]), List.find?_cons_of_neg _ (by simp [ha]), ih]

theorem dget_dset_self {α : Type} (m : List (String × α)) (k : String) (v : α) :
    dget (dset m k v) k = some v := by
  simp [dget, dset]

theorem dget_dset_ne {α : Type} (m : List (String × α)) (k k' : String) (v : α)
    (hne : k' ≠ k) : dget (dset m k v) k' = dget m k' := by
  show dget ((k, v) :: dpop m k) k' = dget m k'
  unfold dget
  rw [List.find?_cons_of_neg _ (by simp [Ne.symm hne])]
  exact dget_dpop_ne m k k' hne

theorem dget_dpop_self {α : Type} (m : List (String × α)) (k : String) :
    dget (dpop m k) k = Option.none := by
  unfold dget dpop
  induction m with
  | nil => rfl
  | cons a rest ih =>
    rw [List.filter_cons]
    by_cases hk : a.1 = k
    · rw [show (decide (a.1 ≠ k)) = false by simp [hk]]
      rw [if_neg (by simp)]
      exact ih
    · rw [show (decide (a.1 ≠ k)) = true by simp [hk]]
      rw [if_pos rfl]
      rw [List.find?_cons_of_neg _ (by simp [hk])]
      exact ih

/-! ## Claim theorems -/

/-- C1: a `forgot_password` request whose OTP dispatch fails with the
"rejected" (400) classification produces the same response status code and
body as one whose dispatch succeeds — the fixed success message — for every
pair of emails and every prior state, so the response does not depend on
account existence. -/
theorem forgot_password_response_independent_of_account_existence
    (st st' : OtpState) (email email' : String) (now now' : Nat)
    (fb fb' : DispatchOutcome) :
    (forgot_password st email now (.httpStatusError 400) fb).result
      = (forgot_password st' email' now' .ok fb').result
    ∧ (forgot_password st' email' now' .ok fb').result = .ok (200, forgotPasswordMessage) := by
  constructor
  · cases fb with
    | ok => simp [forgot_password, send_supabase_otp, PURPOSE_TO_SUPABASE_TYPE]
    | httpStatusError c =>
      by_cases hc : (c = 401 ∨ c = 403) <;>
        simp [forgot_password, send_supabase_otp, PURPOSE_TO_SUPABASE_TYPE, hc]
    | otherError => simp [forgot_password, send_supabase_otp, PURPOSE_TO_SUPABASE_TYPE]
  · simp [forgot_password, send_supabase_otp, PURPOSE_TO_SUPABASE_TYPE]

/-- C8: recording a verified reset token stores the fingerprint `h otp`
(two codes with the same fingerprint produce identical states, so only the
hash is retained) with an expiry equal to the recording instant plus the
configured validity window. -/
theorem record_reset_token_stores_fingerprint_and_fresh_expiry
    (h : String → String) (expiryMinutes : Nat) (st : ResetState)
    (email otp otp' : String) (now : Nat) (hh : h otp = h otp') :
    dget (_record_verified_reset_token h expiryMinutes st email otp now) email
      = some ⟨h otp, now + expiryMinutes⟩
    ∧ _record_verified_reset_token h expiryMinutes st email otp now
      = _record_verified_reset_token h expiryMinutes st email otp' now := by
  constructor
  · simp [_record_verified_reset_token, dget_dset_self]
  · simp [_record_verified_reset_token, hh]

/-- Witness for C8 at concrete inputs. -/
theorem record_reset_token_stores_fingerprint_witness :
    dget (_record_verified_reset_token (fun _ => "fp") 15 [] "a@x.com" "111111" 100) "a@x.com"
      = some ⟨"fp", 115⟩
    ∧ _record_verified_reset_token (fun _ => "fp") 15 [] "a@x.com" "111111" 100
      = _record_verified_reset_token (fun _ => "fp") 15 [] "a@x.com" "222222" 100 :=
  record_reset_token_stores_fingerprint_and_fresh_expiry
    (fun _ => "fp") 15 [] "a@x.com" "111111" "222222" 100 rfl

/-- Helper: with a tracker entry present (of a supported purpose), `resend_otp`
performs exactly one dispatch call under the entry's purpose. -/
theorem resend_calls_of_entry (st : OtpState) (email : String) (now : Nat)
    (d : DispatchOutcome) (entry : OtpEntry) (hget : dget st email = some entry)
    (hvalid : (PURPOSE_TO_SUPABASE_TYPE entry.purpose).isSome = true) :
    (resend_otp st email now d).calls = [(email, entry.purpose)] := by
  obtain ⟨t, ht⟩ := Option.isSome_iff_exists.mp hvalid
  cases d with
  | ok => simp [resend_otp, hget, send_supabase_otp, ht]
  | httpStatusError c =>
    by_cases hc : (c = 401 ∨ c = 403) <;> simp [resend_otp, hget, send_supabase_otp, ht, hc]
  | otherError => simp [resend_otp, hget, send_supabase_otp, ht]

/-- C5: `resend_otp` resolves the purpose solely from the tracker: with no
entry it returns 400 and performs no dispatch; with an entry it dispatches
exactly once under the entry's purpose; in particular immediately after a
successful dispatch it re-dispatches under that same purpose. -/
theorem resend_otp_purpose_from_tracker
    (st : OtpState) (email : String) (now now2 : Nat) (d d2 : DispatchOutcome)
    (purpose : String) :
    (dget st email = Option.none →
      resend_otp st email now d
        = ⟨.error (.http 400 "No pending verification found. Please start the process again."),
            st, []⟩)
    ∧ (∀ entry : OtpEntry, dget st email = some entry →
        (PURPOSE_TO_SUPABASE_TYPE entry.purpose).isSome = true →
        (resend_otp st email now d).calls = [(email, entry.purpose)])
    ∧ ((PURPOSE_TO_SUPABASE_TYPE purpose).isSome = true →
        (resend_otp (send_supabase_otp st email purpose now .ok).tracker email now2 d2).calls
          = [(email, purpose)]) := by
  refine ⟨?_, ?_, ?_⟩
  · intro hnone
    simp [resend_otp, hnone]
  · intro entry hget hvalid
    exact resend_calls_of_entry st email now d entry hget hvalid
  · intro hvalid
    obtain ⟨t, ht⟩ := Option.isSome_iff_exists.mp hvalid
    have htracker :
        dget (send_supabase_otp st email purpose now .ok).tracker email
          = some ⟨purpose, now⟩ := by
      simp [send_supabase_otp, ht, _track_otp_request, dget_dset_self]
    exact resend_calls_of_entry _ email now2 d2 ⟨purpose, now⟩ htracker hvalid

/-- Witness for C5 at concrete inputs: empty tracker gives the hard 400 with
no dispatch, and dispatch-then-resend re-dispatches under "signup". -/
theorem resend_otp_purpose_from_tracker_witness :
    resend_otp [] "a@x.com" 0 .ok
      = ⟨.error (.http 400 "No pending verification found. Please start the process again."),
          [], []⟩
    ∧ (resend_otp (send_supabase_otp [] "a@x.com" "signup" 0 .ok).tracker "a@x.com" 1 .ok).calls
        = [("a@x.com", "signup")] :=
  ⟨(resend_otp_purpose_from_tracker [] "a@x.com" 0 1 .ok .ok "signup").1 rfl,
   (resend_otp_purpose_from_tracker [] "a@x.com" 0 1 .ok .ok "signup").2.2 rfl⟩

/-- Helper: a tracker entry after a run of dispatch events comes from a
successful event in the run, or was already in the starting state. -/
theorem runDispatches_entry_source (evs : List DispatchEvent) (st : OtpState)
    (email : String) (entry : OtpEntry)
    (hget : dget (runDispatches st evs) email = some entry) :
    (∃ ev ∈ evs, ev.email = email ∧ ev.purpose = entry.purpose ∧ ev.outcome = .ok)
    ∨ dget st email = some entry := by
  induction evs generalizing st with
  | nil => right; exact hget
  | cons ev rest ih =>
    rcases ih ((send_supabase_otp st ev.email ev.purpose ev.now ev.outcome).tracker) hget
      with h | h
    · obtain ⟨e', he', hprops⟩ := h
      exact Or.inl ⟨e', List.mem_cons_of_mem _ he', hprops⟩
    · rcases hp : PURPOSE_TO_SUPABASE_TYPE ev.purpose with _ | t
      · rw [show (send_supabase_otp st ev.email ev.purpose ev.now ev.outcome).tracker = st by
          simp [send_supabase_otp, hp]] at h
        exact Or.inr h
      · cases ho : ev.outcome with
        | ok =>
          rw [show (send_supabase_otp st ev.email ev.purpose ev.now ev.outcome).tracker
              = dset st ev.email ⟨ev.purpose, ev.now⟩ by
            simp [send_supabase_otp, hp, ho, _track_otp_request]] at h
          by_cases hemail : email = ev.email
          · subst hemail
            rw [dget_dset_self] at h
            refine Or.inl ⟨ev, List.mem_cons_self _ _, rfl, ?_, ho⟩
            cases h
            rfl
          · rw [dget_dset_ne _ _ _ _ hemail] at h
            exact Or.inr h
        | httpStatusError c =>
          rw [show (send_supabase_otp st ev.email ev.purpose ev.now ev.outcome).tracker = st by
            by_cases hc : (c = 401 ∨ c = 403) <;> simp [send_supabase_otp, hp, ho, hc]] at h
          exact Or.inr h
        | otherError =>
          rw [show (send_supabase_otp st ev.email ev.purpose ev.now ev.outcome).tracker = st by
            simp [send_supabase_otp, hp, ho]] at h
          exact Or.inr h

/-- C10: the tracker is written only after a successful dispatch — on any
failure outcome the map is unchanged; on success the entry holds that
purpose and time; and starting from an empty tracker, the existence of an
entry implies a past successful dispatch for that email and purpose. -/
theorem otp_tracker_entry_implies_successful_dispatch
    (st : OtpState) (email purpose : String) (now : Nat) (outcome : DispatchOutcome)
    (evs : List DispatchEvent) (e2 : String) (entry : OtpEntry) :
    (outcome ≠ .ok → (send_supabase_otp st email purpose now outcome).tracker = st)
    ∧ ((send_supabase_otp st email purpose now outcome).result = .ok () →
        dget (send_supabase_otp st email purpose now outcome).tracker email
          = some ⟨purpose, now⟩)
    ∧ (dget (runDispatches [] evs) e2 = some entry →
        ∃ ev ∈ evs, ev.email = e2 ∧ ev.purpose = entry.purpose ∧ ev.outcome = .ok) := by
  refine ⟨?_, ?_, ?_⟩
  · intro hne
    rcases hp : PURPOSE_TO_SUPABASE_TYPE purpose with _ | t
    · simp [send_supabase_otp, hp]
    · cases outcome with
      | ok => exact absurd rfl hne
      | httpStatusError c =>
        by_cases hc : (c = 401 ∨ c = 403) <;> simp [send_supabase_otp, hp, hc]
      | otherError => simp [send_supabase_otp, hp]
  · intro hok
    rcases hp : PURPOSE_TO_SUPABASE_TYPE purpose with _ | t
    · simp [send_supabase_otp, hp] at hok
    · cases outcome with
      | ok => simp [send_supabase_otp, hp, _track_otp_request, dget_dset_self]
      | httpStatusError c =>
        by_cases hc : (c = 401 ∨ c = 403) <;> simp [send_supabase_otp, hp, hc] at hok
      | otherError => simp [send_supabase_otp, hp] at hok
  · intro hget
    rcases runDispatches_entry_source evs [] e2 entry hget with h | h
    · exact h
    · simp [dget] at h

/-- Witness for C10 at concrete inputs: a rejected dispatch leaves the
tracker unchanged, a successful one writes the entry, and an entry found
after a one-event run comes from that successful event. -/
theorem otp_tracker_entry_witness :
    (send_supabase_otp [] "a@x.com" "signup" 0 (.httpStatusError 400)).tracker = []
    ∧ dget (send_supabase_otp [] "a@x.com" "signup" 0 .ok).tracker "a@x.com"
        = some ⟨"signup", 0⟩
    ∧ ∃ ev ∈ [DispatchEvent.mk "a@x.com" "signup" 0 .ok],
        ev.email = "a@x.com" ∧ ev.purpose = "signup" ∧ ev.outcome = .ok :=
  ⟨(otp_tracker_entry_implies_successful_dispatch [] "a@x.com" "signup" 0
      (.httpStatusError 400) [] "a@x.com" ⟨"signup", 0⟩).1 (by decide),
   (otp_tracker_entry_implies_successful_dispatch [] "a@x.com" "signup" 0
      .ok [] "a@x.com" ⟨"signup", 0⟩).2.1 rfl,
   (otp_tracker_entry_implies_successful_dispatch [] "a@x.com" "signup" 0
      .ok [⟨"a@x.com", "signup", 0, .ok⟩] "a@x.com" ⟨"signup", 0⟩).2.2 (by rfl)⟩

/-- C2 counterexample: with a cache entry that is present and unexpired but
whose stored fingerprint differs from the supplied code's hash, the cached
check yields the mismatch outcome — yet `reset_password` still triggers the
provider re-verification fallback, contradicting the claim that a mismatch
fails immediately without re-verification.  (Fingerprint function taken as
the identity at these concrete points.) -/
theorem reset_password_mismatch_still_reverifies_counterexample :
    (_ensure_reset_token_is_valid (fun s => s) [("a@x.com", ⟨"111111", 10⟩)]
        "a@x.com" "222222" 0).1
      = some (.http 400 "Invalid verification code. Please request a new one.")
    ∧ (reset_password (fun s => s) 10 [("a@x.com", ⟨"111111", 10⟩)]
        "a@x.com" "222222" 0 .httpStatusError (.users []) true).reverifyCalled = true := by
  constructor <;> rfl

/-- C2 (amended): the provider re-verification fallback in `reset_password`
runs exactly when the cached reset-token check raises — for every failure
outcome (missing, mismatched fingerprint, or expired) — and never when the
cached check succeeds. -/
theorem reset_password_reverifies_iff_cached_check_fails
    (h : String → String) (expiryMinutes : Nat) (st : ResetState)
    (email otp : String) (now : Nat) (rv : VerifyOutcome)
    (lu : ListUsersOutcome) (up : Bool) :
    (reset_password h expiryMinutes st email otp now rv lu up).reverifyCalled
      = (_ensure_reset_token_is_valid h st email otp now).1.isSome := by
  rcases hcheck : _ensure_reset_token_is_valid h st email otp now with ⟨err, st1⟩
  cases err with
  | none =>
    cases lu with
    | exn => simp [reset_password, hcheck]
    | users us =>
      cases hfind : us.find? (fun u => u.email == email) with
      | none => simp [reset_password, hcheck, hfind]
      | some u => cases up <;> simp [reset_password, hcheck, hfind]
  | some e =>
    cases rv with
    | body v =>
      by_cases hv : v.truthy
      · cases lu with
        | exn => simp [reset_password, hcheck, verify_supabase_otp, PURPOSE_TO_SUPABASE_TYPE, hv]
        | users us =>
          cases hfind : us.find? (fun u => u.email == email) with
          | none =>
            simp [reset_password, hcheck, verify_supabase_otp, PURPOSE_TO_SUPABASE_TYPE, hv, hfind]
          | some u =>
            cases up <;>
              simp [reset_password, hcheck, verify_supabase_otp, PURPOSE_TO_SUPABASE_TYPE, hv,
                hfind]
      · simp [reset_password, hcheck, verify_supabase_otp, PURPOSE_TO_SUPABASE_TYPE, hv]
    | httpStatusError =>
      simp [reset_password, hcheck, verify_supabase_otp, PURPOSE_TO_SUPABASE_TYPE, PyVal.truthy]
    | otherError =>
      simp [reset_password, hcheck, verify_supabase_otp, PURPOSE_TO_SUPABASE_TYPE]

/-- C3 counterexample: an entry whose expiry lies in the past (recorded more
than the validity window ago) but whose fingerprint does not match the
supplied code is rejected as *invalid code* — not as expired — and is left
in the cache, contradicting the claim that expiry is checked before the
fingerprint and the entry eagerly removed. -/
theorem ensure_reset_token_expired_mismatch_counterexample :
    _ensure_reset_token_is_valid (fun s => s) [("b@x.com", ⟨"111111", 5⟩)]
        "b@x.com" "222222" 20
      = (some (.http 400 "Invalid verification code. Please request a new one."),
         [("b@x.com", ⟨"111111", 5⟩)]) := by
  rfl

/-- C3 (amended): for a present cache entry the fingerprint comparison comes
first: a mismatched fingerprint is rejected as invalid-code with the entry
left in place (even if expired); only a matching fingerprint reaches the
expiry comparison, where an expired entry is rejected and eagerly removed,
and an unexpired one passes. -/
theorem ensure_reset_token_fingerprint_checked_before_expiry
    (h : String → String) (st : ResetState) (email otp : String) (now : Nat)
    (entry : ResetEntry) (hget : dget st email = some entry) :
    (entry.token_hash ≠ h otp →
      _ensure_reset_token_is_valid h st email otp now
        = (some (.http 400 "Invalid verification code. Please request a new one."), st))
    ∧ (entry.token_hash = h otp → now > entry.expires →
      _ensure_reset_token_is_valid h st email otp now
        = (some (.http 400 "Verification code expired. Please request a new one."),
           dpop st email))
    ∧ (entry.token_hash = h otp → ¬ now > entry.expires →
      _ensure_reset_token_is_valid h st email otp now = (Option.none, st)) := by
  refine ⟨?_, ?_, ?_⟩
  · intro hne
    simp [_ensure_reset_token_is_valid, hget, hne]
  · intro heq hexp
    simp [_ensure_reset_token_is_valid, hget, heq, hexp]
  · intro heq hexp
    simp [_ensure_reset_token_is_valid, hget, heq, hexp]

/-- Witness for the amended C3 at concrete inputs: mismatch beats expiry. -/
theorem ensure_reset_token_fingerprint_first_witness :
    _ensure_reset_token_is_valid (fun s => s) [("c@x.com", ⟨"111111", 5⟩)]
        "c@x.com" "333333" 99
      = (some (.http 400 "Invalid verification code. Please request a new one."),
         [("c@x.com", ⟨"111111", 5⟩)]) :=
  (ensure_reset_token_fingerprint_checked_before_expiry (fun s => s)
    [("c@x.com", ⟨"111111", 5⟩)] "c@x.com" "333333" 99 ⟨"111111", 5⟩ rfl).1 (by decide)

/-- C4 counterexample: the password "weakweak" violates three rules
(uppercase, digit, special character) but the validation reports only the
first one checked, not the full enumeration the claim promises. -/
theorem password_validation_reports_only_first_rule_counterexample :
    passwordFieldErrors "weakweak" = ["Password must contain at least one uppercase letter"]
    ∧ specPasswordErrors "weakweak"
        = ["Password must contain at least one uppercase letter",
           "Password must contain at least one number",
           "Password must contain at least one special character"]
    ∧ passwordFieldErrors "weakweak" ≠ specPasswordErrors "weakweak" := by
  refine ⟨by decide, by decide, by decide⟩

/-- C4 (amended): the 422 validation response carries exactly the FIRST
violated rule in the fixed check order (minimum length, uppercase,
lowercase, digit, special character); in particular a password violating
exactly one rule yields that rule only. -/
theorem password_validation_first_violated_rule (v : String) :
    passwordFieldErrors v = (specPasswordErrors v).take 1 := by
  unfold passwordFieldErrors specPasswordErrors validate_password_strength
  cases h0 : violates v .minLength <;>
    cases h1 : violates v .uppercase <;>
      cases h2 : violates v .lowercase <;>
        cases h3 : violates v .digit <;>
          cases h4 : violates v .specialChar <;>
            simp [h0, h1, h2, h3, h4, ruleMessage]

/-- C6: `signin` answers 400 with one indistinguishable message when the
provider raises or returns no user, and 403 — a distinct status — when the
returned user's `email_confirmed_at` is absent; in the 403 case no session
is created. -/
theorem signin_unverified_email_distinct_status (db : DbLookup) (user : SupabaseUser) :
    signin .exn db = (.error (.http 400 "Invalid email or password."), Option.none)
    ∧ signin (.response Option.none) db
        = (.error (.http 400 "Invalid email or password."), Option.none)
    ∧ (optTruthy user.email_confirmed_at = false →
        signin (.response (some user)) db
          = (.error (.http 403 "Please verify your email before signing in."), Option.none)) := by
  refine ⟨rfl, rfl, ?_⟩
  intro hconf
  simp [signin, hconf]

/-- Witness for C6 at a concrete unconfirmed user. -/
theorem signin_unverified_email_witness :
    signin (.response (some ⟨"u1", "a@x.com", Option.none, .dict []⟩)) (.rows [])
      = (.error (.http 403 "Please verify your email before signing in."), Option.none) :=
  (signin_unverified_email_distinct_status (.rows [])
    ⟨"u1", "a@x.com", Option.none, .dict []⟩).2.2 rfl

/-- C9: when account creation fails with a 400/409/422 `AuthApiError` whose
message signals an existing registration (and not an authorization issue),
`signup` re-dispatches a signup OTP; when that dispatch succeeds it returns
the success-shaped body with the `already_registered` flag, having tracked
the new request. -/
theorem signup_already_registered_resends_and_flags
    (st : OtpState) (email : String) (now : Nat) (e : AuthApiErr)
    (hstatus : e.status = some 400 ∨ e.status = some 409 ∨ e.status = some 422)
    (hmsg : strContains (strLower e.message) "already registered" = true
          ∨ strContains (strLower e.message) "user already exists" = true)
    (hna : strContains (strLower e.message) "not allowed" = false) :
    (signup st email now (.authApiError e) .ok).result
      = .ok ⟨"This email is already registered. We have resent the verification code.", true⟩
    ∧ (signup st email now (.authApiError e) .ok).calls = [(email, "signup")]
    ∧ (signup st email now (.authApiError e) .ok).tracker = dset st email ⟨"signup", now⟩ := by
  have h401 : e.status ≠ some 401 := by rcases hstatus with h | h | h <;> simp [h]
  have h403 : e.status ≠ some 403 := by rcases hstatus with h | h | h <;> simp [h]
  refine ⟨?_, ?_, ?_⟩ <;>
    simp [signup, send_supabase_otp, PURPOSE_TO_SUPABASE_TYPE, _track_otp_request,
      h401, h403, hna, hstatus, hmsg]

/-- Witness for C9 at a concrete provider error. -/
theorem signup_already_registered_witness :
    (signup [] "a@x.com" 0
        (.authApiError ⟨"User already registered", some 422⟩) .ok).result
      = .ok ⟨"This email is already registered. We have resent the verification code.", true⟩ :=
  (signup_already_registered_resends_and_flags [] "a@x.com" 0
    ⟨"User already registered", some 422⟩
    (Or.inr (Or.inr rfl)) (Or.inl (by decide)) (by decide)).1

/-- Guarding `.get` with `isinstance(·, dict)` is redundant in the model,
where `PyVal.get` already returns `None` off dicts. -/
theorem ite_isDict_get (v : PyVal) (k : String) :
    (if v.isDict then v.get k else PyVal.none) = v.get k := by
  cases v <;> simp [PyVal.isDict, PyVal.get]

/-- A dict literal is a dict. -/
theorem isDict_dict (es : List (String × PyVal)) : (PyVal.dict es).isDict = true := rfl

/-- C7: `verify_signup_otp` answers 400 exactly when the provider's
verification result is absent/empty; a present result lacking a user
payload, a user id or an email yields some 500 — never 400 — and the
session is written only when verification succeeded with both id and email
present (and then the response is the 200 success). -/
theorem verify_signup_otp_contract (st : OtpState) (email : String) (v : PyVal)
    (o : VerifyOutcome) :
    ((verify_signup_otp st email .httpStatusError).1
        = .error (.http 400 "Invalid or expired verification code."))
    ∧ (v.truthy = false →
        (verify_signup_otp st email (.body v)).1
          = .error (.http 400 "Invalid or expired verification code."))
    ∧ (v.truthy = true →
        ((v.get "user").truthy = false
          ∨ ((v.get "user").get "id").truthy = false
          ∨ ((v.get "user").get "email").truthy = false) →
        ∃ msg, (verify_signup_otp st email (.body v)).1 = .error (.http 500 msg))
    ∧ (∀ sm : SessionData, (verify_signup_otp st email o).2.2 = some sm →
        sm.user_id.truthy = true ∧ sm.email.truthy = true
          ∧ (verify_signup_otp st email o).1 = .ok (200, "Email verified successfully.", sm)) := by
  refine ⟨rfl, ?_, ?_, ?_⟩
  · intro hv
    simp [verify_signup_otp, verify_supabase_otp, PURPOSE_TO_SUPABASE_TYPE, hv]
  · intro hv hbad
    by_cases hup : (v.get "user").truthy
    · by_cases hupd : (v.get "user").isDict
      · by_cases hm0 : ((v.get "user").get "user_metadata").truthy
        · by_cases hmd : ((v.get "user").get "user_metadata").isDict
          · refine ⟨"Incomplete user data returned after verification.", ?_⟩
            rcases hbad with h | h | h
            · exact absurd hup (by simp [h])
            · simp [verify_signup_otp, verify_supabase_otp, PURPOSE_TO_SUPABASE_TYPE,
                ite_isDict_get, hv, hup, hupd, hm0, hmd, h]
            · simp [verify_signup_otp, verify_supabase_otp, PURPOSE_TO_SUPABASE_TYPE,
                ite_isDict_get, hv, hup, hupd, hm0, hmd, h]
          · refine ⟨"Verification failed. Please try again.", ?_⟩
            simp [verify_signup_otp, verify_supabase_otp, PURPOSE_TO_SUPABASE_TYPE,
              ite_isDict_get, hv, hup, hupd, hm0, hmd]
        · refine ⟨"Incomplete user data returned after verification.", ?_⟩
          rcases hbad with h | h | h
          · exact absurd hup (by simp [h])
          · simp [verify_signup_otp, verify_supabase_otp, PURPOSE_TO_SUPABASE_TYPE,
              ite_isDict_get, isDict_dict, hv, hup, hupd, hm0, h]
          · simp [verify_signup_otp, verify_supabase_otp, PURPOSE_TO_SUPABASE_TYPE,
              ite_isDict_get, isDict_dict, hv, hup, hupd, hm0, h]
      · refine ⟨"Verification failed. Please try again.", ?_⟩
        simp [verify_signup_otp, verify_supabase_otp, PURPOSE_TO_SUPABASE_TYPE,
          ite_isDict_get, hv, hup, hupd]
    · refine ⟨"Verification service did not return user information.", ?_⟩
      simp [verify_signup_otp, verify_supabase_otp, PURPOSE_TO_SUPABASE_TYPE,
        ite_isDict_get, hv, hup]
  · intro sm hsm
    cases o with
    | httpStatusError =>
      simp [verify_signup_otp, verify_supabase_otp, PURPOSE_TO_SUPABASE_TYPE,
        PyVal.truthy] at hsm
    | otherError =>
      simp [verify_signup_otp, verify_supabase_otp, PURPOSE_TO_SUPABASE_TYPE] at hsm
    | body w =>
      by_cases hw : w.truthy
      · by_cases hup : (w.get "user").truthy
        · by_cases hupd : (w.get "user").isDict
          · by_cases hm0 : ((w.get "user").get "user_metadata").truthy
            · by_cases hmd : ((w.get "user").get "user_metadata").isDict
              · by_cases hid : ((w.get "user").get "id").truthy
                · by_cases hem : ((w.get "user").get "email").truthy
                  · simp [verify_signup_otp, verify_supabase_otp,
                      PURPOSE_TO_SUPABASE_TYPE, ite_isDict_get, hw, hup, hupd, hm0, hmd,
                      hid, hem] at hsm
                    subst hsm
                    simp [verify_signup_otp, verify_supabase_otp,
                      PURPOSE_TO_SUPABASE_TYPE, ite_isDict_get, hw, hup, hupd, hm0, hmd,
                      hid, hem]
                  · simp [verify_signup_otp, verify_supabase_otp, PURPOSE_TO_SUPABASE_TYPE,
                      ite_isDict_get, hw, hup, hupd, hm0, hmd, hid, hem] at hsm
                · simp [verify_signup_otp, verify_supabase_otp, PURPOSE_TO_SUPABASE_TYPE,
                    ite_isDict_get, hw, hup, hupd, hm0, hmd, hid] at hsm
              · simp [verify_signup_otp, verify_supabase_otp, PURPOSE_TO_SUPABASE_TYPE,
                  ite_isDict_get, hw, hup, hupd, hm0, hmd] at hsm
            · by_cases hid : ((w.get "user").get "id").truthy
              · by_cases hem : ((w.get "user").get "email").truthy
                · simp [verify_signup_otp, verify_supabase_otp,
                    PURPOSE_TO_SUPABASE_TYPE, ite_isDict_get, isDict_dict, hw, hup, hupd,
                    hm0, hid, hem] at hsm
                  subst hsm
                  simp [verify_signup_otp, verify_supabase_otp,
                    PURPOSE_TO_SUPABASE_TYPE, ite_isDict_get, isDict_dict, hw, hup, hupd,
                    hm0, hid, hem]
                · simp [verify_signup_otp, verify_supabase_otp, PURPOSE_TO_SUPABASE_TYPE,
                    ite_isDict_get, isDict_dict, hw, hup, hupd, hm0, hid, hem] at hsm
              · simp [verify_signup_otp, verify_supabase_otp, PURPOSE_TO_SUPABASE_TYPE,
                  ite_isDict_get, isDict_dict, hw, hup, hupd, hm0, hid] at hsm
          · simp [verify_signup_otp, verify_supabase_otp, PURPOSE_TO_SUPABASE_TYPE,
              ite_isDict_get, hw, hup, hupd] at hsm
        · simp [verify_signup_otp, verify_supabase_otp, PURPOSE_TO_SUPABASE_TYPE,
            ite_isDict_get, hw, hup] at hsm
      · simp [verify_signup_otp, verify_supabase_otp, PURPOSE_TO_SUPABASE_TYPE,
          hw] at hsm

/-- Witness for C7 at concrete inputs: empty result gives 400, a result whose
user payload lacks an id gives a 500. -/
theorem verify_signup_otp_contract_witness :
    (verify_signup_otp [] "a@x.com" (.body (.dict []))).1
      = .error (.http 400 "Invalid or expired verification code.")
    ∧ ∃ msg,
        (verify_signup_otp [] "a@x.com"
            (.body (.dict [("user", .dict [("email", .str "a@x.com")])]))).1
          = .error (.http 500 msg) :=
  ⟨(verify_signup_otp_contract [] "a@x.com" (.dict []) .httpStatusError).2.1 rfl,
   (verify_signup_otp_contract [] "a@x.com"
      (.dict [("user", .dict [("email", .str "a@x.com")])]) .httpStatusError).2.2.1
     (by decide) (by decide)⟩

end AuthGateway
